import Mathlib

/-!
Shallow embedding of the correlation engine of the aranya-platform-scorer
webhook service: the `/upload` and `/signalhire/callback` handlers of
`src/app.py`, the file-backed stores of `src/lib/storage.py`, and the payload
flattening of `src/lib/csv_writer.py`.

Durable files under DATA_ROOT are modelled as finite maps (functions into
`Option`), JSON payloads as structures of optional fields, and Python
truthiness of strings and lists is modelled explicitly.  Outbound effects
(the completion email) are modelled by a per-batch invocation counter plus a
boolean oracle saying whether the send would succeed.
-/

namespace AranyaScorer

abbrev ReqId := String
abbrev BatchId := String

/-- Python `x or y` on two optional strings: `None` and the empty string are
falsy, anything else is returned unchanged. -/
def pyOr (a b : Option String) : Option String :=
  match a with
  | some s => if s = "" then b else some s
  | none => b

/-- One entry of `candidate.contacts` in a callback payload item, with the two
key spellings `subType` and `sub_type` that `csv_writer.py` probes. -/
structure Contact where
  type : Option String
  value : Option String
  subType : Option String
  sub_type : Option String
deriving DecidableEq

/-- One entry of `candidate.social`. -/
structure Social where
  type : Option String
  link : Option String
deriving DecidableEq

/-- The `candidate` object of a payload item, restricted to the keys
`csv_writer.py` reads. -/
structure Candidate where
  uid : Option String
  fullName : Option String
  full_name : Option String
  contacts : Option (List Contact)
  social : Option (List Social)
deriving DecidableEq

/-- One per-identifier item of a callback payload. -/
structure Item where
  status : Option String
  item : Option String
  candidate : Option Candidate
deriving DecidableEq

/-- A callback payload: the parsed JSON body, a list of per-identifier items. -/
abbrev Payload := List Item

/-- One flattened CSV row produced by `flatten_callback_payload`. -/
structure Row where
  uid : Option String
  full_name : Option String
  status : Option String
  linkedin_url : Option String
  contact_type : Option String
  contact_value : Option String
  contact_subtype : Option String
deriving DecidableEq

/-- `it.get("candidate") or {}`: the empty dict all lookups miss. -/
def emptyCandidate : Candidate := ⟨none, none, none, none, none⟩

/-- ASCII lower-casing of one character; the payload type tags are ASCII. -/
def asciiLower (c : Char) : Char :=
  if 65 ≤ c.toNat ∧ c.toNat ≤ 90 then Char.ofNat (c.toNat + 32) else c

/-- Python `str.lower()` on the ASCII strings this code compares. -/
def lowerStr (s : String) : String := String.mk (s.data.map asciiLower)

/-- The social-entry test of the flattening loop:
`(s.get("type") or "").lower() in ("li", "linkedin")`. -/
def isLinkedIn (s : Social) : Bool :=
  (lowerStr (s.type.getD "") == "li") || (lowerStr (s.type.getD "") == "linkedin")

/-- The `for s in socials: ... break` scan: the `link` value of the first
LinkedIn-typed social entry, `none` when no entry matches. -/
def linkedinLink (socials : List Social) : Option String :=
  match socials.find? isLinkedIn with
  | some s => s.link
  | none => none

/-- The rows the body of the flattening loop appends for one payload item:
one row per contact when `contacts` is truthy, otherwise a single row with
null contact fields. -/
def itemRows (it : Item) : List Row :=
  let cand := it.candidate.getD emptyCandidate
  let uid := cand.uid
  let fullName := pyOr cand.fullName cand.full_name
  let link := pyOr (linkedinLink (cand.social.getD [])) it.item
  match cand.contacts.getD [] with
  | [] => [⟨uid, fullName, it.status, link, none, none, none⟩]
  | cs => cs.map fun c => ⟨uid, fullName, it.status, link, c.type, c.value, pyOr c.subType c.sub_type⟩

/-- The flattening loop over all payload items, in order. -/
def flattenLoop : List Item → List Row
  | [] => []
  | it :: rest => itemRows it ++ flattenLoop rest

/-- `csv_writer.flatten_callback_payload` on a list payload:
`if not payload: return rows` guard, then one loop iteration per item. -/
def flatten_callback_payload (payload : Payload) : List Row :=
  if payload = [] then [] else flattenLoop payload

/-- One element of a batch's `errors` list.  The free-text messages carried by
the email and callback error dicts are abstracted away. -/
inductive ErrEntry where
  | submission (item : String) (error : String)
  | emailError
  | callbackError
deriving DecidableEq

/-- The `status.json` dict of one batch.  The `submissions` diagnostics list
is abstracted to its length. -/
structure BatchStatus where
  status : String
  email : Option String
  total_items : Nat
  pending : List ReqId
  received : Nat
  errors : List ErrEntry
  submissions : Nat
deriving DecidableEq

/-- `read_status` of a missing `status.json` returns `{}`; the callback
handler then reads every key through `.get` with exactly these defaults. -/
def emptyStatus : BatchStatus := ⟨"", none, 0, [], 0, [], 0⟩

/-- The durable files under DATA_ROOT, plus a count of completion-email
invocations per batch (`send_result_email` calls). -/
structure State where
  requests : ReqId → Option BatchId
  batches : BatchId → Option BatchStatus
  resultsJson : BatchId → List (ReqId × Payload)
  resultsCsv : BatchId → List Row
  notifierCalls : BatchId → Nat

/-- Point update of a string-keyed map. -/
def updateMap {V : Type} (m : String → Option V) (k : String) (v : Option V) : String → Option V :=
  fun k2 => if k2 = k then v else m k2

/-- Fresh DATA_ROOT: no request files, no batch directories. -/
def initState : State := ⟨fun _ => none, fun _ => none, fun _ => [], fun _ => [], fun _ => 0⟩

/-- `storage.map_request_to_batch`: writes `requests/{rid}.txt`, overwriting
any previous content. -/
def map_request_to_batch (s : State) (rid : ReqId) (bid : BatchId) : State :=
  { s with requests := updateMap s.requests rid (some bid) }

/-- `storage.find_batch_by_request`: reads `requests/{rid}.txt` when present. -/
def find_batch_by_request (s : State) (rid : ReqId) : Option BatchId :=
  s.requests rid

/-- `storage.write_status`: rewrites `batches/{bid}/status.json` whole. -/
def write_status (s : State) (bid : BatchId) (st : BatchStatus) : State :=
  { s with batches := updateMap s.batches bid (some st) }

/-- `storage.read_status`: the stored status, or `{}` (`emptyStatus`) when the
file is missing. -/
def read_status (s : State) (bid : BatchId) : BatchStatus :=
  (s.batches bid).getD emptyStatus

/-- `storage.append_results_json`: `data.setdefault(request_id, payload)` —
first write wins per request id. -/
def append_results_json (s : State) (bid : BatchId) (rid : ReqId) (payload : Payload) : State :=
  { s with resultsJson := fun b =>
      if b = bid then
        if ((s.resultsJson bid).find? fun e => e.1 == rid).isSome then s.resultsJson bid
        else s.resultsJson bid ++ [(rid, payload)]
      else s.resultsJson b }

/-- `storage.append_results_csv`: appends the rows; an empty row list returns
before touching the file. -/
def append_results_csv (s : State) (bid : BatchId) (rows : List Row) : State :=
  { s with resultsCsv := fun b =>
      if b = bid then (if rows = [] then s.resultsCsv bid else s.resultsCsv bid ++ rows)
      else s.resultsCsv b }

/-- HTTP acknowledgment of the callback route: 200, 400 or 500. -/
inductive Ack where
  | ok
  | clientError
  | serverError
deriving DecidableEq

/-- Python truthiness of an optional string. -/
def truthyStr : Option String → Bool
  | some s => s != ""
  | none => false

/-- The `except Exception` arm of the callback route, reached when
`request.json()` fails: when the request id resolves, a callback_error entry
is appended to that batch's status (and an error email is attempted); either
way the route answers HTTP 500. -/
def callbackJsonFailure (s : State) (rid : ReqId) : State × Ack :=
  match find_batch_by_request s rid with
  | none => (s, Ack.serverError)
  | some bid =>
      let st := read_status s bid
      (write_status s bid { st with errors := st.errors ++ [ErrEntry.callbackError] }, Ack.serverError)

/-- The main body of the callback route once the request id resolved to
`bid`: record raw payload, append flattened rows, remove the id from pending,
increment received, and on empty pending mark complete and attempt the
completion email.  `emailOk` says whether `send_result_email` would succeed. -/
def callbackApply (s : State) (rid : ReqId) (bid : BatchId) (payload : Payload) (emailOk : Bool) : State × Ack :=
  let s1 := append_results_json s bid rid payload
  let s2 := append_results_csv s1 bid (flatten_callback_payload payload)
  let st := read_status s2 bid
  let pending1 := st.pending.erase rid
  let received1 := st.received + 1
  if pending1 = [] then
    let st1 := { st with status := "complete", pending := pending1, received := received1 }
    let s3 := write_status s2 bid st1
    if truthyStr st1.email && !(s3.resultsCsv bid).isEmpty then
      let s4 := { s3 with notifierCalls := fun b => if b = bid then s3.notifierCalls b + 1 else s3.notifierCalls b }
      if emailOk then (s4, Ack.ok)
      else (write_status s4 bid { st1 with errors := st1.errors ++ [ErrEntry.emailError] }, Ack.ok)
    else (s3, Ack.ok)
  else
    (write_status s2 bid { st with pending := pending1, received := received1 }, Ack.ok)

/-- The `/signalhire/callback` route.  `reqHeader` is the Request-Id header
(`none` when absent; the empty string is falsy and also rejected), `body` is
the parsed JSON body (`none` when parsing raises). -/
def callback (s : State) (reqHeader : Option ReqId) (body : Option Payload) (emailOk : Bool) : State × Ack :=
  match reqHeader with
  | none => (s, Ack.clientError)
  | some rid =>
      if rid = "" then (s, Ack.clientError)
      else
        match body with
        | none => callbackJsonFailure s rid
        | some payload =>
            match find_batch_by_request s rid with
            | none => (s, Ack.ok)
            | some bid => callbackApply s rid bid payload emailOk

/-- Result of `submit_identifier` for one item as the upload loop reads it:
success carrying a truthy request id, success without one, or a failure. -/
inductive SubResult where
  | ok (rid : ReqId)
  | okNoRid
  | fail (error : String)
deriving DecidableEq

/-- The in-memory `status` dict the upload loop accumulates before the single
`write_status` persists it. -/
structure UploadMem where
  pending : List ReqId
  errors : List (String × String)
  submissions : Nat
deriving DecidableEq

/-- One iteration of the `/upload` submission loop.  Only
`map_request_to_batch` touches durable state; pending ids, errors and
submission diagnostics accumulate in the in-memory dict. -/
def uploadStep (bid : BatchId) (sm : State × UploadMem) (it : String × SubResult) : State × UploadMem :=
  let mem := { sm.2 with submissions := sm.2.submissions + 1 }
  match it.2 with
  | SubResult.fail e => (sm.1, { mem with errors := mem.errors ++ [(it.1, e)] })
  | SubResult.okNoRid => (sm.1, mem)
  | SubResult.ok rid =>
      (map_request_to_batch sm.1 rid bid, { mem with pending := mem.pending ++ [rid] })

/-- The whole submission loop of `/upload`. -/
def uploadLoop (bid : BatchId) (s : State) (mem : UploadMem) : List (String × SubResult) → State × UploadMem
  | [] => (s, mem)
  | it :: rest => uploadLoop bid (uploadStep bid (s, mem) it).1 (uploadStep bid (s, mem) it).2 rest

/-- The `/upload` handler after CSV parsing: run the submission loop, then
persist the whole status — including the full pending set — in one
`write_status` after the loop. -/
def upload (s : State) (bid : BatchId) (email : String) (items : List (String × SubResult)) : State :=
  write_status (uploadLoop bid s ⟨[], [], 0⟩ items).1 bid
    { status := "processing", email := some email, total_items := items.length,
      pending := (uploadLoop bid s ⟨[], [], 0⟩ items).2.pending, received := 0,
      errors := (uploadLoop bid s ⟨[], [], 0⟩ items).2.errors.map fun e => ErrEntry.submission e.1 e.2,
      submissions := (uploadLoop bid s ⟨[], [], 0⟩ items).2.submissions }

/-- A UTC timestamp as `datetime.utcnow()` exposes it to `strftime`. -/
structure Timestamp where
  year : Nat
  month : Nat
  day : Nat
  hour : Nat
  minute : Nat
  second : Nat
  micro : Nat
deriving DecidableEq

/-- The ASCII digit character for one decimal digit. -/
def digitChar (n : Nat) : Char := Char.ofNat (48 + n)

/-- A zero-padded two-digit `strftime` field (faithful below 100). -/
def pad2 (n : Nat) : String := String.mk [digitChar (n / 10), digitChar (n % 10)]

/-- The zero-padded `%Y` field (faithful for four-digit years). -/
def pad4 (n : Nat) : String :=
  String.mk [digitChar (n / 1000), digitChar (n / 100 % 10), digitChar (n / 10 % 10), digitChar (n % 10)]

/-- The zero-padded `%f` microseconds field (faithful below 1000000). -/
def pad6 (n : Nat) : String :=
  String.mk [digitChar (n / 100000), digitChar (n / 10000 % 10), digitChar (n / 1000 % 10),
             digitChar (n / 100 % 10), digitChar (n / 10 % 10), digitChar (n % 10)]

/-- `now.strftime("%Y%m%d_%H%M%S%f")`: 21 characters for an in-range time. -/
def strftimeYmdHMSf (t : Timestamp) : String :=
  pad4 t.year ++ pad2 t.month ++ pad2 t.day ++ String.mk ['_'] ++
    pad2 t.hour ++ pad2 t.minute ++ pad2 t.second ++ pad6 t.micro

/-- `storage.new_batch_id`: `now[-8:]` of the formatted timestamp — only the
seconds and microseconds digits survive the slice. -/
def new_batch_id (t : Timestamp) : String :=
  String.mk ((strftimeYmdHMSf t).data.drop ((strftimeYmdHMSf t).data.length - 8))

/-- A one-item batch awaiting the callback for request id r1, as `/upload`
leaves it after one successful submission. -/
def batch1 : BatchStatus := ⟨"processing", some "user", 1, ["r1"], 0, [], 1⟩

/-- State after submitting that batch: correlation entry and status written. -/
def st1 : State :=
  write_status (map_request_to_batch initState "r1" "b1") "b1" batch1

/-- A callback payload for the item: resolved candidate, zero contacts. -/
def payload1 : Payload :=
  [⟨some "success", some "id1", some ⟨some "u1", some "Jane", none, some [], some []⟩⟩]

/-- First delivery of the callback for r1. -/
def deliverOnce : State × Ack := callback st1 (some "r1") (some payload1) true

/-- Redelivery of the same callback: same correlation token, same body. -/
def deliverTwice : State × Ack := callback deliverOnce.1 (some "r1") (some payload1) true

/-- Number of error entries attributable to callback failures. -/
def countCallbackFailures (es : List ErrEntry) : Nat :=
  es.countP fun e => e == ErrEntry.callbackError

/-- State and in-memory dict one step into a two-item submission loop. -/
def uploadMid : State × UploadMem :=
  uploadStep "b1" (initState, ⟨[], [], 0⟩) ("u1", SubResult.ok "r1")

/-- A social entry typed as LinkedIn but carrying no link. -/
def liNoLink : Social := ⟨some "li", none⟩

/-- A social entry typed as LinkedIn carrying a link. -/
def liWithLink : Social := ⟨some "li", some "https://www.linkedin.com/in/x"⟩

/-- A payload item whose first LinkedIn-typed social entry carries no link
while a second LinkedIn-typed entry does. -/
def cex8Item : Item :=
  ⟨some "success", some "orig-id",
   some ⟨some "u1", some "Jane", none, none, some [liNoLink, liWithLink]⟩⟩

/-- A contact entry with both type and value. -/
def w8c1 : Contact := ⟨some "email", some "a", some "work", none⟩

/-- A second contact entry. -/
def w8c2 : Contact := ⟨some "phone", some "b", none, none⟩

/-- A payload item carrying two contact entries and a LinkedIn link. -/
def w8Item : Item :=
  ⟨some "success", some "id8",
   some ⟨some "u8", some "Ann", none, some [w8c1, w8c2], some [liWithLink]⟩⟩

/-- Store after registering request id r for batch b1. -/
def c9s1 : State := map_request_to_batch initState "r" "b1"

/-- Store after a second register of the same request id, for batch b2. -/
def c9s2 : State := map_request_to_batch c9s1 "r" "b2"

/-- A creation instant. -/
def tsA : Timestamp := ⟨2026, 10, 12, 7, 30, 42, 123456⟩

/-- A creation instant one minute later: same seconds and microseconds. -/
def tsB : Timestamp := ⟨2026, 10, 12, 7, 31, 42, 123456⟩

/-- C1: the callback route has no idempotency guard.  Redelivering the same
callback (same token, same body) is acknowledged successfully both times, but
it increments `received` a second time and appends the flattened Result Rows
a second time, contradicting the claimed redelivery idempotency. -/
theorem C1_redelivery_not_idempotent :
    deliverOnce.2 = Ack.ok ∧ deliverTwice.2 = Ack.ok ∧
    (read_status deliverOnce.1 "b1").received = 1 ∧
    (read_status deliverTwice.1 "b1").received = 2 ∧
    (deliverOnce.1.resultsCsv "b1").length = 1 ∧
    (deliverTwice.1.resultsCsv "b1").length = 2 := by
  decide

/-- C2: the completion branch runs on every callback that finds `pending`
empty, so a redelivery after completion invokes the Completion Notifier a
second time for the same batch, contradicting the at-most-once claim. -/
theorem C2_notifier_invoked_twice :
    (read_status st1 "b1").status = "processing" ∧
    (read_status deliverOnce.1 "b1").status = "complete" ∧
    deliverOnce.1.notifierCalls "b1" = 1 ∧
    deliverTwice.1.notifierCalls "b1" = 2 := by
  decide

/-- C3: after redelivering the single callback of a one-item batch, the state
reached has `received + |callback-failure errors| = 2 > 1 = total_items`, so
the claimed invariant does not hold of all reachable states. -/
theorem C3_received_can_exceed_total :
    (read_status deliverTwice.1 "b1").total_items = 1 ∧
    (read_status deliverTwice.1 "b1").received +
        countCallbackFailures (read_status deliverTwice.1 "b1").errors = 2 ∧
    (read_status deliverTwice.1 "b1").total_items <
      (read_status deliverTwice.1 "b1").received +
        countCallbackFailures (read_status deliverTwice.1 "b1").errors := by
  decide

/-- C4 counterexample: a delivery whose token resolves to no batch but whose
body is unparsable is answered with HTTP 500, not a successful
acknowledgment, so not every unresolvable delivery is acknowledged
successfully (the state is still left unchanged). -/
theorem C4_counterexample :
    find_batch_by_request initState "x" = none ∧
    callback initState (some "x") none true = (initState, Ack.serverError) ∧
    Ack.serverError ≠ Ack.ok :=
  ⟨rfl, rfl, by decide⟩

/-- C4 amended: a parsable delivery whose token does not resolve is
acknowledged successfully and returns the state untouched; with an unparsable
body the state is also untouched but the acknowledgment is a server error. -/
theorem C4_unknown_token_quiet (s : State) (rid : ReqId) (p : Payload) (eo : Bool)
    (hr : rid ≠ "") (h : find_batch_by_request s rid = none) :
    callback s (some rid) (some p) eo = (s, Ack.ok) ∧
    callback s (some rid) none eo = (s, Ack.serverError) := by
  unfold callback callbackJsonFailure
  simp [hr, h]

/-- C4 witness: the amended theorem at a fresh store and the token x. -/
theorem C4_witness :
    callback initState (some "x") (some []) true = (initState, Ack.ok) ∧
    callback initState (some "x") none true = (initState, Ack.serverError) :=
  C4_unknown_token_quiet initState "x" [] true (by decide) rfl

/-- C5 counterexample: an unparsable body whose token resolves to a batch is
rejected with a server error, not a client error, and it mutates that batch's
record by appending a callback_error entry. -/
theorem C5_counterexample :
    (callback st1 (some "r1") none true).2 = Ack.serverError ∧
    Ack.serverError ≠ Ack.clientError ∧
    (read_status st1 "b1").errors = [] ∧
    (read_status (callback st1 (some "r1") none true).1 "b1").errors = [ErrEntry.callbackError] := by
  decide

/-- C5 amended: a delivery with no token (or a falsy one) is rejected with a
client error and no mutation; an unparsable body is rejected with a server
error — with no mutation when the token does not resolve, and with a
callback_error appended to the resolved batch's record when it does. -/
theorem C5_missing_token_vs_unparsable (s : State) (b : Option Payload) (eo : Bool)
    (rid : ReqId) (bid : BatchId) (hr : rid ≠ "") :
    callback s none b eo = (s, Ack.clientError) ∧
    callback s (some "") b eo = (s, Ack.clientError) ∧
    (find_batch_by_request s rid = none → callback s (some rid) none eo = (s, Ack.serverError)) ∧
    (find_batch_by_request s rid = some bid →
      callback s (some rid) none eo =
        (write_status s bid
          { read_status s bid with
            errors := (read_status s bid).errors ++ [ErrEntry.callbackError] },
         Ack.serverError)) := by
  refine ⟨rfl, rfl, ?_, ?_⟩
  · intro h
    unfold callback callbackJsonFailure
    simp [hr, h]
  · intro h
    unfold callback callbackJsonFailure
    simp [hr, h]

/-- C5 witness: the amended theorem at the submitted one-item batch. -/
theorem C5_witness :
    callback st1 none none true = (st1, Ack.clientError) ∧
    callback st1 (some "r1") none true =
      (write_status st1 "b1"
        { read_status st1 "b1" with
          errors := (read_status st1 "b1").errors ++ [ErrEntry.callbackError] },
       Ack.serverError) :=
  ⟨(C5_missing_token_vs_unparsable st1 none true "r1" "b1" (by decide)).1,
   (C5_missing_token_vs_unparsable st1 none true "r1" "b1" (by decide)).2.2.2 rfl⟩

/-- C6 counterexample: one step into a two-item submission loop, request id
r1 is already resolvable through the Correlation Index while batch b1 has no
durable record at all — in particular no durable pending entry; the pending
set reaches the store only in the bulk `write_status` after the loop. -/
theorem C6_counterexample :
    uploadLoop "b1" initState ⟨[], [], 0⟩ [("u1", SubResult.ok "r1"), ("u2", SubResult.ok "r2")] =
      uploadLoop "b1" uploadMid.1 uploadMid.2 [("u2", SubResult.ok "r2")] ∧
    find_batch_by_request uploadMid.1 "r1" = some "b1" ∧
    uploadMid.1.batches "b1" = none ∧
    (upload initState "b1" "user" [("u1", SubResult.ok "r1"), ("u2", SubResult.ok "r2")]).batches "b1" =
      some ⟨"processing", some "user", 2, ["r1", "r2"], 0, [], 2⟩ :=
  ⟨rfl, rfl, rfl, by decide⟩

/-- C6 amended: the submission loop never writes the durable batch record (the
pending set is persisted only by the bulk `write_status` after the loop),
while every successfully submitted request id is registered in the
Correlation Index immediately and stays resolvable from then on. -/
theorem C6_index_individual_pending_bulk (bid : BatchId) (s : State) (mem : UploadMem)
    (items : List (String × SubResult)) :
    ((uploadLoop bid s mem items).1.batches = s.batches) ∧
    (∀ rid, (s.requests rid = some bid ∨ ∃ u, (u, SubResult.ok rid) ∈ items) →
      (uploadLoop bid s mem items).1.requests rid = some bid) := by
  induction items generalizing s mem with
  | nil =>
    refine ⟨rfl, ?_⟩
    intro rid h
    rcases h with h | ⟨u, hu⟩
    · exact h
    · simp at hu
  | cons it rest ih =>
    obtain ⟨u0, r0⟩ := it
    cases r0 with
    | ok rid0 =>
      simp only [uploadLoop, uploadStep]
      constructor
      · exact (ih _ _).1
      · intro rid h
        refine (ih _ _).2 rid ?_
        rcases h with h | ⟨u, hu⟩
        · left
          by_cases hrr : rid = rid0
          · subst hrr
            simp [map_request_to_batch, updateMap]
          · simpa [map_request_to_batch, updateMap, hrr] using h
        · rcases List.mem_cons.mp hu with h1 | h1
          · left
            have h2 : rid = rid0 := by
              have h3 := congrArg Prod.snd h1
              simpa using h3
            subst h2
            simp [map_request_to_batch, updateMap]
          · exact Or.inr ⟨u, h1⟩
    | okNoRid =>
      simp only [uploadLoop, uploadStep]
      refine ⟨(ih _ _).1, ?_⟩
      intro rid h
      refine (ih _ _).2 rid ?_
      rcases h with h | ⟨u, hu⟩
      · exact Or.inl h
      · rcases List.mem_cons.mp hu with h1 | h1
        · simp at h1
        · exact Or.inr ⟨u, h1⟩
    | fail e =>
      simp only [uploadLoop, uploadStep]
      refine ⟨(ih _ _).1, ?_⟩
      intro rid h
      refine (ih _ _).2 rid ?_
      rcases h with h | ⟨u, hu⟩
      · exact Or.inl h
      · rcases List.mem_cons.mp hu with h1 | h1
        · simp at h1
        · exact Or.inr ⟨u, h1⟩

/-- C6 witness: the amended theorem on the two-item loop from a fresh store. -/
theorem C6_witness :
    (uploadLoop "b1" initState ⟨[], [], 0⟩
        [("u1", SubResult.ok "r1"), ("u2", SubResult.ok "r2")]).1.batches = initState.batches ∧
    (uploadLoop "b1" initState ⟨[], [], 0⟩
        [("u1", SubResult.ok "r1"), ("u2", SubResult.ok "r2")]).1.requests "r1" = some "b1" :=
  ⟨(C6_index_individual_pending_bulk "b1" initState ⟨[], [], 0⟩ _).1,
   (C6_index_individual_pending_bulk "b1" initState ⟨[], [], 0⟩ _).2 "r1"
     (Or.inr ⟨"u1", by decide⟩)⟩

/-- Every payload item flattens to at least one row. -/
theorem one_le_itemRows_length (it : Item) : 1 ≤ (itemRows it).length := by
  unfold itemRows
  cases hc : (it.candidate.getD emptyCandidate).contacts.getD [] with
  | nil => simp [hc]
  | cons c cs => simp [hc]

/-- C7 counterexample: the empty payload flattens to zero rows, so not every
callback payload produces at least one Result Row. -/
theorem C7_counterexample :
    flatten_callback_payload [] = [] ∧ ¬ 1 ≤ (flatten_callback_payload []).length := by
  decide

/-- C7 amended: every payload carrying at least one item flattens to at least
one Result Row, even when the provider found zero contacts. -/
theorem C7_nonempty_payload_yields_row (p : Payload) (h : p ≠ []) :
    1 ≤ (flatten_callback_payload p).length := by
  cases p with
  | nil => exact absurd rfl h
  | cons it rest =>
    have h1 : flatten_callback_payload (it :: rest) = itemRows it ++ flattenLoop rest := by
      simp [flatten_callback_payload, flattenLoop]
    rw [h1, List.length_append]
    have h2 := one_le_itemRows_length it
    omega

/-- C7 witness: the amended theorem on the zero-contact payload. -/
theorem C7_witness : 1 ≤ (flatten_callback_payload payload1).length :=
  C7_nonempty_payload_yields_row payload1 (by decide)

/-- C8 counterexample: a LinkedIn-typed social-profile link exists for the
candidate, yet the produced row's display link is the submitted identifier,
because the scan stops at the first LinkedIn-typed entry, whose link is null. -/
theorem C8_counterexample :
    (flatten_callback_payload [cex8Item]).map Row.linkedin_url = [some "orig-id"] ∧
    liWithLink ∈ (cex8Item.candidate.getD emptyCandidate).social.getD [] ∧
    isLinkedIn liWithLink = true ∧
    liWithLink.link = some "https://www.linkedin.com/in/x" ∧
    some "orig-id" ≠ some "https://www.linkedin.com/in/x" := by
  decide

/-- Case split of the display-link fallback of the flattening loop. -/
theorem linkCases (socials : List Social) (orig : Option String) :
    (∃ sl l, socials.find? isLinkedIn = some sl ∧ sl.link = some l ∧ l ≠ "" ∧
      pyOr (linkedinLink socials) orig = some l) ∨
    ((∀ sl, socials.find? isLinkedIn = some sl → sl.link = none ∨ sl.link = some "") ∧
      pyOr (linkedinLink socials) orig = orig) := by
  cases hf : socials.find? isLinkedIn with
  | none =>
    refine Or.inr ⟨fun sl h2 => Option.noConfusion h2, ?_⟩
    simp [linkedinLink, hf, pyOr]
  | some sl =>
    cases hl : sl.link with
    | none =>
      refine Or.inr ⟨?_, ?_⟩
      · intro sl2 h2
        have h3 : sl2 = sl := (Option.some.inj h2).symm
        subst h3
        exact Or.inl hl
      · simp [linkedinLink, hf, hl, pyOr]
    | some l =>
      by_cases hl0 : l = ""
      · subst hl0
        refine Or.inr ⟨?_, ?_⟩
        · intro sl2 h2
          have h3 : sl2 = sl := (Option.some.inj h2).symm
          subst h3
          exact Or.inr hl
        · simp [linkedinLink, hf, hl, pyOr]
      · exact Or.inl ⟨sl, l, rfl, hl, hl0, by simp [linkedinLink, hf, hl, pyOr, hl0]⟩

/-- Every row of one item carries the same display link: the first
LinkedIn-typed entry's link filtered through Python truthiness, else the
submitted identifier. -/
theorem itemRows_linkedin_url (it : Item) (r : Row) (hr : r ∈ itemRows it) :
    r.linkedin_url =
      pyOr (linkedinLink ((it.candidate.getD emptyCandidate).social.getD [])) it.item := by
  simp only [itemRows] at hr
  cases hc : (it.candidate.getD emptyCandidate).contacts.getD [] with
  | nil =>
    rw [hc] at hr
    simp at hr
    subst hr
    rfl
  | cons c cs =>
    rw [hc] at hr
    dsimp only at hr
    simp only [List.mem_map] at hr
    obtain ⟨c0, hc0, h3⟩ := hr
    subst h3
    rfl

/-- C8 amended: per payload item, flattening yields one row per contact entry
in order (a single null-contact row when there are none), and each row's
display link is the first LinkedIn-typed social entry's link when that entry
exists with a non-null, non-empty link, otherwise the submitted identifier. -/
theorem C8_item_flattening (it : Item) (cs : List Contact)
    (hcs : (it.candidate.getD emptyCandidate).contacts.getD [] = cs) :
    ((itemRows it).map (fun r => (r.contact_type, r.contact_value)) =
        if cs = [] then [(none, none)] else cs.map fun c => (c.type, c.value)) ∧
    ((itemRows it).length = if cs = [] then 1 else cs.length) ∧
    (cs = [] → ∀ r ∈ itemRows it, r.contact_type = none ∧ r.contact_value = none ∧
        r.contact_subtype = none) ∧
    (∀ r ∈ itemRows it,
      (∃ sl l, ((it.candidate.getD emptyCandidate).social.getD []).find? isLinkedIn = some sl ∧
          sl.link = some l ∧ l ≠ "" ∧ r.linkedin_url = some l) ∨
      ((∀ sl, ((it.candidate.getD emptyCandidate).social.getD []).find? isLinkedIn = some sl →
          sl.link = none ∨ sl.link = some "") ∧ r.linkedin_url = it.item)) := by
  have key4 : ∀ r ∈ itemRows it,
      (∃ sl l, ((it.candidate.getD emptyCandidate).social.getD []).find? isLinkedIn = some sl ∧
          sl.link = some l ∧ l ≠ "" ∧ r.linkedin_url = some l) ∨
      ((∀ sl, ((it.candidate.getD emptyCandidate).social.getD []).find? isLinkedIn = some sl →
          sl.link = none ∨ sl.link = some "") ∧ r.linkedin_url = it.item) := by
    intro r hr
    have hlink := itemRows_linkedin_url it r hr
    rcases linkCases ((it.candidate.getD emptyCandidate).social.getD []) it.item with
      ⟨sl, l, h1, h2, h3, h4⟩ | ⟨h1, h2⟩
    · exact Or.inl ⟨sl, l, h1, h2, h3, hlink.trans h4⟩
    · exact Or.inr ⟨h1, hlink.trans h2⟩
  cases cs with
  | nil =>
    have hform : itemRows it =
        [⟨(it.candidate.getD emptyCandidate).uid,
          pyOr (it.candidate.getD emptyCandidate).fullName
            (it.candidate.getD emptyCandidate).full_name,
          it.status,
          pyOr (linkedinLink ((it.candidate.getD emptyCandidate).social.getD [])) it.item,
          none, none, none⟩] := by
      simp only [itemRows, hcs]
    refine ⟨?_, ?_, ?_, key4⟩
    · simp [hform]
    · simp [hform]
    · intro _ r hr
      rw [hform] at hr
      simp at hr
      subst hr
      exact ⟨rfl, rfl, rfl⟩
  | cons c0 cs0 =>
    have hform : itemRows it = (c0 :: cs0).map fun c =>
        (⟨(it.candidate.getD emptyCandidate).uid,
          pyOr (it.candidate.getD emptyCandidate).fullName
            (it.candidate.getD emptyCandidate).full_name,
          it.status,
          pyOr (linkedinLink ((it.candidate.getD emptyCandidate).social.getD [])) it.item,
          c.type, c.value, pyOr c.subType c.sub_type⟩ : Row) := by
      simp only [itemRows, hcs]
    refine ⟨?_, ?_, ?_, key4⟩
    · simp only [hform, List.map_map]
      simp [Function.comp]
    · simp [hform]
    · intro habs
      exact absurd habs (List.cons_ne_nil c0 cs0)

/-- C8 witness: the amended theorem on a two-contact item. -/
theorem C8_witness :
    (itemRows w8Item).map (fun r => (r.contact_type, r.contact_value)) =
      (if ([w8c1, w8c2] : List Contact) = [] then [(none, none)]
       else [w8c1, w8c2].map fun c => (c.type, c.value)) :=
  (C8_item_flattening w8Item [w8c1, w8c2] rfl).1

/-- C9 counterexample: a second register for the same request id overwrites
the mapping — the request id is reassigned to the batch of the later write. -/
theorem C9_counterexample :
    find_batch_by_request c9s1 "r" = some "b1" ∧
    find_batch_by_request c9s2 "r" = some "b2" ∧
    some ("b2" : BatchId) ≠ some ("b1" : BatchId) := by
  decide

/-- The main callback body never touches the Correlation Index. -/
theorem callbackApply_requests (s : State) (rid : ReqId) (bid : BatchId) (p : Payload)
    (eo : Bool) : ((callbackApply s rid bid p eo).1).requests = s.requests := by
  unfold callbackApply append_results_json append_results_csv write_status read_status
  dsimp only
  repeat' split
  all_goals rfl

/-- The whole callback route never touches the Correlation Index. -/
theorem callback_requests (s : State) (hdr : Option ReqId) (b : Option Payload) (eo : Bool) :
    ((callback s hdr b eo).1).requests = s.requests := by
  unfold callback callbackJsonFailure write_status read_status
  cases hdr with
  | none => rfl
  | some rid =>
    dsimp only
    split
    · rfl
    · cases b with
      | none =>
        cases hf : find_batch_by_request s rid with
        | none => rfl
        | some bid => rfl
      | some p =>
        cases hf : find_batch_by_request s rid with
        | none => rfl
        | some bid => exact callbackApply_requests s rid bid p eo

/-- C9 amended: resolve is unaffected by registers for other request ids, by
status writes, and by the whole callback route; but a second register for the
same request id does overwrite the mapping — last write wins. -/
theorem C9_register_overwrites (s : State) (rid rid2 : ReqId) (bid2 : BatchId)
    (h : rid ≠ rid2) :
    find_batch_by_request (map_request_to_batch s rid2 bid2) rid = find_batch_by_request s rid ∧
    (∀ bid st, find_batch_by_request (write_status s bid st) rid = find_batch_by_request s rid) ∧
    (∀ hdr b eo, find_batch_by_request ((callback s hdr b eo).1) rid = find_batch_by_request s rid) ∧
    find_batch_by_request (map_request_to_batch s rid bid2) rid = some bid2 := by
  refine ⟨?_, fun bid st => rfl, fun hdr b eo => ?_, ?_⟩
  · simp [find_batch_by_request, map_request_to_batch, updateMap, h]
  · unfold find_batch_by_request
    rw [callback_requests]
  · simp [find_batch_by_request, map_request_to_batch, updateMap]

/-- C9 witness: the amended theorem on a fresh store with ids r and q. -/
theorem C9_witness :
    find_batch_by_request (map_request_to_batch initState "q" "b2") "r" =
      find_batch_by_request initState "r" ∧
    find_batch_by_request (map_request_to_batch initState "r" "b2") "r" = some "b2" :=
  ⟨(C9_register_overwrites initState "r" "q" "b2" (by decide)).1,
   (C9_register_overwrites initState "r" "q" "b2" (by decide)).2.2.2⟩

/-- The batch id keeps exactly the seconds and microseconds digits. -/
theorem new_batch_id_eq (t : Timestamp) :
    new_batch_id t = String.mk [digitChar (t.second / 10), digitChar (t.second % 10),
      digitChar (t.micro / 100000), digitChar (t.micro / 10000 % 10),
      digitChar (t.micro / 1000 % 10), digitChar (t.micro / 100 % 10),
      digitChar (t.micro / 10 % 10), digitChar (t.micro % 10)] := rfl

/-- Decimal digit characters are distinct. -/
theorem digitChar_inj_fin : ∀ a b : Fin 10, digitChar a.val = digitChar b.val → a = b := by
  decide

/-- Injectivity of the digit character on single digits. -/
theorem digitChar_inj (a b : Nat) (ha : a < 10) (hb : b < 10)
    (h : digitChar a = digitChar b) : a = b :=
  congrArg Fin.val (digitChar_inj_fin ⟨a, ha⟩ ⟨b, hb⟩ h)

/-- C10 counterexample: two distinct creation instants one minute apart
generate the same batch id. -/
theorem C10_counterexample :
    new_batch_id tsA = new_batch_id tsB ∧ tsA ≠ tsB := by
  decide

/-- C10 amended: the generated id retains only the seconds and microseconds
of the creation instant, so two in-range instants produce the same batch id
exactly when those two fields agree — ids are unique only within one minute. -/
theorem C10_id_determined_by_seconds_micro (t1 t2 : Timestamp)
    (h1s : t1.second < 60) (h1m : t1.micro < 1000000)
    (h2s : t2.second < 60) (h2m : t2.micro < 1000000) :
    new_batch_id t1 = new_batch_id t2 ↔ t1.second = t2.second ∧ t1.micro = t2.micro := by
  constructor
  · intro h
    rw [new_batch_id_eq, new_batch_id_eq] at h
    have h2 := congrArg String.data h
    simp only [List.cons.injEq, and_true] at h2
    obtain ⟨e1, e2, e3, e4, e5, e6, e7, e8⟩ := h2
    have d1 := digitChar_inj _ _ (by omega) (by omega) e1
    have d2 := digitChar_inj _ _ (by omega) (by omega) e2
    have d3 := digitChar_inj _ _ (by omega) (by omega) e3
    have d4 := digitChar_inj _ _ (by omega) (by omega) e4
    have d5 := digitChar_inj _ _ (by omega) (by omega) e5
    have d6 := digitChar_inj _ _ (by omega) (by omega) e6
    have d7 := digitChar_inj _ _ (by omega) (by omega) e7
    have d8 := digitChar_inj _ _ (by omega) (by omega) e8
    omega
  · rintro ⟨hs, hm⟩
    rw [new_batch_id_eq, new_batch_id_eq, hs, hm]

/-- C10 witness: the amended theorem at the two instants one minute apart. -/
theorem C10_witness :
    new_batch_id tsA = new_batch_id tsB ↔ tsA.second = tsB.second ∧ tsA.micro = tsB.micro :=
  C10_id_determined_by_seconds_micro tsA tsB (by decide) (by decide) (by decide) (by decide)

end AranyaScorer
